import Mathlib

/-!
Verification of the wandb automations SDK excerpt: input preparers for
automation create/update requests (`wandb/sdk/automations/_utils.py`),
the paginated automations listing (`wandb/apis/public/automations.py`),
the service-API finalizer cleanup (`wandb/apis/public/service_api.py`),
and the local-server health-check wait (`tools/local_wandb_server.py`).

Python code is shallowly embedded: pydantic models become structures,
fallible operations return `Except`, and the relevant Python exception
classes become constructors of explicit error types.
-/

namespace Wandb

/-! ## Discriminant enums

The generated enums (`ActionType`, `ScopeType`, event types) are not part of
this excerpt's source files; their variants are modelled from the spec (§3)
and from the source comment in `_utils.py` noting the deprecated
`QueueJobActionInput` launch-job action. -/

/-- Action discriminant. `QUEUE_JOB` is the deprecated launch-job action that
is deliberately absent from `_ACTION_CONFIG_KEYS`. -/
inductive ActionType where
  | NOTIFICATION
  | GENERIC_WEBHOOK
  | NO_OP
  | QUEUE_JOB
deriving DecidableEq, Repr

/-- Scope discriminant, modelled from the spec (§3). -/
inductive ScopeType where
  | PROJECT
  | ARTIFACT_COLLECTION
deriving DecidableEq, Repr

/-- Event discriminant, modelled from the spec (§3). -/
inductive EventType where
  | CREATE_ARTIFACT
  | RUN_METRIC
  | UPDATE_ARTIFACT_ALIAS
  | ADD_ARTIFACT_ALIAS
deriving DecidableEq, Repr

/-! ## Filter expressions -/

/-- Modelled from the spec: a leaf predicate of the filter tree — a field
comparison operator applied to a field and a value (§3). -/
structure FilterPredicate where
  field : String
  op : String
  value : String
deriving DecidableEq, Repr

/-- Modelled from the spec: the event filter is a tree of boolean combinators
(`And`/`Or`) over leaf predicates (§3). -/
inductive FilterExpr where
  | and (args : List FilterExpr)
  | or (args : List FilterExpr)
  | pred (p : FilterPredicate)

/-- Modelled from the spec: the "wrapped" read-shape of an event filter
produced by decoding a prior read (`_WrappedEventFilter` in `events.py`,
referenced by `prepare_update_input`); it wraps the inner filter expression
in a `filter` field. -/
structure WrappedEventFilter where
  filter : FilterExpr

/-- The filter slot of a previously-read (saved) event: either already the
plain write-shape expression, or the wrapped read-shape. The source
distinguishes the two with an `isinstance(..., _WrappedEventFilter)` check. -/
inductive SavedEventFilter where
  | plain (f : FilterExpr)
  | wrapped (w : WrappedEventFilter)

/-! ## Actions -/

/-- Modelled from the spec: notification action payload (message text and
severity, plus the integration reference) (§3). -/
structure DoNotification where
  integration_id : String
  title : String
  message : String
  severity : String
deriving DecidableEq, Repr

/-- Modelled from the spec: webhook action payload (integration reference and
a JSON request payload) (§3). -/
structure DoWebhook where
  integration_id : String
  request_payload : String
deriving DecidableEq, Repr

/-- Modelled from the spec: the no-op action carries no meaningful fields. -/
structure DoNothing where
  no_op : Bool
deriving DecidableEq, Repr

/-- Modelled from the source comment in `_utils.py`: the deprecated launch-job
action (`QueueJobActionInput`), not exposed for creating automations. -/
structure QueueJob where
  queue_id : String
deriving DecidableEq, Repr

/-- The tagged union of action variants (`_InputAction | _SavedAction` in the
source; saved variants convert to input variants by validators, so both sides
are modelled by the same union). -/
inductive InputAction where
  | notification (a : DoNotification)
  | webhook (a : DoWebhook)
  | noop (a : DoNothing)
  | queueJob (a : QueueJob)
deriving DecidableEq, Repr

/-- The `action_type` discriminant of an action object: it is determined by
the variant (spec §3 invariant: the tag is always consistent with the
populated field set). -/
def InputAction.action_type : InputAction → ActionType
  | .notification _ => .NOTIFICATION
  | .webhook _ => .GENERIC_WEBHOOK
  | .noop _ => .NO_OP
  | .queueJob _ => .QUEUE_JOB

/-! ## Action-config preparation (`_utils.py`) -/

/-- Errors raised while preparing an automation payload. `keyError` is the
raw Python `KeyError` from a failed dict lookup; `validationError` is a
pydantic `ValidationError`; `unsupportedActionType` is the descriptive
configuration error that the spec asks for — the code never raises it, and it
exists here only so that the spec's claim can be stated. -/
inductive PrepError where
  | keyError (key : ActionType)
  | validationError (what : String)
  | unsupportedActionType (key : ActionType)
deriving DecidableEq, Repr

/-- `_ACTION_CONFIG_KEYS` from `_utils.py`: the dict mapping each supported
`ActionType` to the name of its field in the action-config wrapper. The
deprecated `QUEUE_JOB` deliberately has no entry (lookup raises `KeyError`). -/
def _ACTION_CONFIG_KEYS : ActionType → Option String
  | .NOTIFICATION => some "notification_action_input"
  | .GENERIC_WEBHOOK => some "generic_webhook_action_input"
  | .NO_OP => some "no_op_action_input"
  | .QUEUE_JOB => none

/-- `InputActionConfig` from `_utils.py`: the action-config wrapper in which
each of the three supported action kinds has an optional field defaulting to
`None`. -/
structure InputActionConfig where
  notification_action_input : Option DoNotification := none
  generic_webhook_action_input : Option DoWebhook := none
  no_op_action_input : Option DoNothing := none
deriving DecidableEq, Repr

/-- `InputActionConfig.model_validate({key: obj})`: build the wrapper with the
action object placed under `key`, all other fields left at their `None`
default. Pydantic validates the object against the field's declared type, so
a mismatched variant fails validation. -/
def InputActionConfig.model_validate (key : String) (obj : InputAction) :
    Except PrepError InputActionConfig :=
  if key = "notification_action_input" then
    match obj with
    | .notification a => .ok { notification_action_input := some a }
    | _ => .error (.validationError key)
  else if key = "generic_webhook_action_input" then
    match obj with
    | .webhook a => .ok { generic_webhook_action_input := some a }
    | _ => .error (.validationError key)
  else if key = "no_op_action_input" then
    match obj with
    | .noop a => .ok { no_op_action_input := some a }
    | _ => .error (.validationError key)
  else
    .error (.validationError key)

/-- `prepare_action_input` from `_utils.py`: look up the wrapper field name
for the action's discriminant (`KeyError` when absent), then validate the
wrapper with the action object under that key. -/
def prepare_action_input (obj : InputAction) : Except PrepError InputActionConfig :=
  match _ACTION_CONFIG_KEYS obj.action_type with
  | none => .error (.keyError obj.action_type)
  | some key => InputActionConfig.model_validate key obj

/-! ## Automation aggregates (`automations.py`, modelled from the spec §3)

The aggregate classes themselves (`NewAutomation`, `PreparedAutomation`,
`Automation`) are not part of this excerpt's source files; their fields and
optionality are modelled from the spec: an automation composes scope + event +
action + `name`, optional `description`, `enabled` flag, and (once saved) an
opaque identity. -/

/-- Modelled from the spec: a scope carries its discriminant, an opaque
backend identifier, and a display name (§3). -/
structure AutomationScope where
  scope_type : ScopeType
  id : String
  name : String

/-- Modelled from the spec: an event to be written holds its discriminant, its
embedded scope, and a (write-shape) filter expression (§3). -/
structure InputEvent where
  event_type : EventType
  scope : AutomationScope
  filter : FilterExpr

/-- Modelled from the spec: an event decoded from a prior read; its filter
slot may be the wrapped read-shape. -/
structure SavedEvent where
  event_type : EventType
  scope : AutomationScope
  filter : SavedEventFilter

/-- Modelled from the spec: an unsaved automation (no identity); fields may
still be unset until validated as a `PreparedAutomation`. -/
structure NewAutomation where
  name : Option String := none
  description : Option String := none
  enabled : Option Bool := none
  scope : Option AutomationScope := none
  event : Option InputEvent := none
  action : Option InputAction := none

/-- Modelled from the spec: a fully-populated automation ready to be turned
into a create payload (`PreparedAutomation` in `automations.py`). -/
structure PreparedAutomation where
  name : String
  description : Option String
  enabled : Bool
  scope : AutomationScope
  event : InputEvent
  action : InputAction

/-- `PreparedAutomation.model_validate`: validation succeeds exactly when all
required fields of the unsaved automation are present. -/
def PreparedAutomation.model_validate (a : NewAutomation) :
    Except PrepError PreparedAutomation :=
  match a.name, a.enabled, a.scope, a.event, a.action with
  | some n, some en, some sc, some ev, some ac =>
      .ok ⟨n, a.description, en, sc, ev, ac⟩
  | _, _, _, _, _ => .error (.validationError "PreparedAutomation")

/-- Modelled from the spec: a saved automation — same composition plus the
opaque identity `id`; its event comes from a prior read (§3). -/
structure Automation where
  id : String
  name : String
  description : Option String
  enabled : Bool
  scope : AutomationScope
  event : SavedEvent
  action : InputAction

/-- `AutomationParams` from `_utils.py`: the optional keyword arguments
(`total=False` TypedDict) accepted by the preparers; an absent key leaves the
corresponding automation field untouched. The event slot's type differs
between the create path (write-shape events) and the update path (previously
read events), so it is a parameter here. -/
structure AutomationParams (EventT : Type) where
  name : Option String := none
  description : Option String := none
  enabled : Option Bool := none
  scope : Option AutomationScope := none
  event : Option EventT := none
  action : Option InputAction := none

/-- `obj.model_copy(update=updates)` on an unsaved automation: replace exactly
the fields present in `updates`, keep the rest. -/
def NewAutomation.model_copy (a : NewAutomation)
    (u : AutomationParams InputEvent) : NewAutomation where
  name := match u.name with | some v => some v | none => a.name
  description := match u.description with | some v => some v | none => a.description
  enabled := match u.enabled with | some v => some v | none => a.enabled
  scope := match u.scope with | some v => some v | none => a.scope
  event := match u.event with | some v => some v | none => a.event
  action := match u.action with | some v => some v | none => a.action

/-- `obj.model_copy(update=updates)` on a saved automation: replace exactly
the fields present in `updates`, keep the rest (the identity is not an
updatable parameter). -/
def Automation.model_copy (a : Automation)
    (u : AutomationParams SavedEvent) : Automation where
  id := a.id
  name := u.name.getD a.name
  description := match u.description with | some v => some v | none => a.description
  enabled := u.enabled.getD a.enabled
  scope := u.scope.getD a.scope
  event := u.event.getD a.event
  action := u.action.getD a.action

/-! ## Input preparers (`_utils.py`) -/

/-- `CreateFilterTriggerInput`: the GraphQL create payload (fields as
constructed by `prepare_create_input`). -/
structure CreateFilterTriggerInput where
  name : String
  description : Option String
  enabled : Bool
  scope_type : ScopeType
  scope_id : String
  triggering_event_type : EventType
  event_filter : FilterExpr
  triggered_action_type : ActionType
  triggered_action_config : InputActionConfig

/-- `UpdateFilterTriggerInput`: the GraphQL update payload — the create shape
plus the identity field `id`. -/
structure UpdateFilterTriggerInput where
  id : String
  name : String
  description : Option String
  enabled : Bool
  scope_type : ScopeType
  scope_id : String
  triggering_event_type : EventType
  event_filter : FilterExpr
  triggered_action_type : ActionType
  triggered_action_config : InputActionConfig

/-- `prepare_create_input` from `_utils.py`: apply the updates to the unsaved
automation, validate it as a `PreparedAutomation`, then build the create
payload, delegating the action-config wrapper to `prepare_action_input`. -/
def prepare_create_input (obj : NewAutomation)
    (updates : AutomationParams InputEvent) :
    Except PrepError CreateFilterTriggerInput :=
  match PreparedAutomation.model_validate (obj.model_copy updates) with
  | .error e => .error e
  | .ok prepared =>
    match prepare_action_input prepared.action with
    | .error e => .error e
    | .ok cfg =>
      .ok { name := prepared.name
            description := prepared.description
            enabled := prepared.enabled
            scope_type := prepared.scope.scope_type
            scope_id := prepared.scope.id
            triggering_event_type := prepared.event.event_type
            event_filter := prepared.event.filter
            triggered_action_type := prepared.action.action_type
            triggered_action_config := cfg }

/-- `prepare_update_input` from `_utils.py`: apply the updates to the saved
automation, then build the update payload; the event filter is unwrapped when
it is the wrapped read-shape (`isinstance(..., _WrappedEventFilter)`). -/
def prepare_update_input (obj : Automation)
    (updates : AutomationParams SavedEvent) :
    Except PrepError UpdateFilterTriggerInput :=
  let updated := obj.model_copy updates
  match prepare_action_input updated.action with
  | .error e => .error e
  | .ok action_config =>
    .ok { id := updated.id
          name := updated.name
          description := updated.description
          enabled := updated.enabled
          scope_type := updated.scope.scope_type
          scope_id := updated.scope.id
          triggering_event_type := updated.event.event_type
          event_filter :=
            match updated.event.filter with
            | .wrapped w => w.filter
            | .plain f => f
          triggered_action_type := updated.action.action_type
          triggered_action_config := action_config }

/-! ## JSON values and Python subscript semantics

`client.execute` returns plain decoded JSON data (`dict[str, Any]`);
`_update_response` then subscripts it and validates the result against the
generated page model. Subscripting a `dict` with a missing key raises
`KeyError` (a `LookupError`); subscripting a non-subscriptable value (`None`,
a bool, a number) or a list/str with a string key raises `TypeError`. -/

/-- A decoded JSON value. -/
inductive Json where
  | null
  | bool (b : Bool)
  | str (s : String)
  | num (n : Int)
  | arr (items : List Json)
  | obj (fields : List (String × Json))

/-- Python exception classes raised while looking up and validating the page
data: `KeyError` (a `LookupError`), `AttributeError`, pydantic
`ValidationError`, and `TypeError`. -/
inductive RawExn where
  | keyError (key : String)
  | attributeError (what : String)
  | validationError (what : String)
  | typeError (what : String)
deriving DecidableEq, Repr

/-- `data[key]` in Python: a dict yields the value or raises `KeyError`; any
other JSON value raises `TypeError` when subscripted with a string key. -/
def Json.getitem (j : Json) (key : String) : Except RawExn Json :=
  match j with
  | .obj fields =>
    match fields.find? (fun p => p.fst == key) with
    | some p => .ok p.snd
    | none => .error (.keyError key)
  | _ => .error (.typeError "object is not subscriptable")

/-- Look up a key of a JSON object, `none` when absent or not an object
(used by the pydantic-style validators, which report missing or mistyped
fields as `ValidationError`). -/
def Json.field? (j : Json) (key : String) : Option Json :=
  match j with
  | .obj fields => (fields.find? (fun p => p.fst == key)).map Prod.snd
  | _ => none

def Json.asString? : Json → Option String
  | .str s => some s
  | _ => none

def Json.asBool? : Json → Option Bool
  | .bool b => some b
  | _ => none

/-! ## Page model validation (generated pydantic models)

The generated models (`ProjectConnectionFields`, the trigger fragment, and
the field aliases they validate against) are not part of this excerpt's
source files; their expected shape is modelled from the spec (§6):
`searchScope.projects.{edges[].node.triggers[], pageInfo.{hasNextPage,
endCursor}}`, with each trigger record carrying the automation fields of
§3. -/

def ScopeType.ofString? : String → Option ScopeType
  | "PROJECT" => some .PROJECT
  | "ARTIFACT_COLLECTION" => some .ARTIFACT_COLLECTION
  | _ => none

def EventType.ofString? : String → Option EventType
  | "CREATE_ARTIFACT" => some .CREATE_ARTIFACT
  | "RUN_METRIC" => some .RUN_METRIC
  | "UPDATE_ARTIFACT_ALIAS" => some .UPDATE_ARTIFACT_ALIAS
  | "ADD_ARTIFACT_ALIAS" => some .ADD_ARTIFACT_ALIAS
  | _ => none

mutual

/-- Modelled from the spec: validate a JSON value as a filter-expression tree
(`And`/`Or` combinators over leaf predicates, §3). -/
def FilterExpr.model_validate : Json → Except RawExn FilterExpr
  | .obj [("$and", .arr items)] =>
    match FilterExpr.validateList items with
    | .ok fs => .ok (.and fs)
    | .error e => .error e
  | .obj [("$or", .arr items)] =>
    match FilterExpr.validateList items with
    | .ok fs => .ok (.or fs)
    | .error e => .error e
  | .obj [("field", .str f), ("op", .str o), ("value", .str v)] =>
    .ok (.pred ⟨f, o, v⟩)
  | _ => .error (.validationError "FilterExpr")

def FilterExpr.validateList : List Json → Except RawExn (List FilterExpr)
  | [] => .ok []
  | j :: rest =>
    match FilterExpr.model_validate j with
    | .error e => .error e
    | .ok f =>
      match FilterExpr.validateList rest with
      | .error e => .error e
      | .ok fs => .ok (f :: fs)

end

/-- Modelled from the spec: decoding a prior read yields the wrapped filter
representation when the payload nests the expression under a `filter` key,
and the plain expression otherwise (§4.3). -/
def SavedEventFilter.model_validate (j : Json) : Except RawExn SavedEventFilter :=
  match j with
  | .obj [("filter", inner)] =>
    match FilterExpr.model_validate inner with
    | .ok f => .ok (.wrapped ⟨f⟩)
    | .error e => .error e
  | _ =>
    match FilterExpr.model_validate j with
    | .ok f => .ok (.plain f)
    | .error e => .error e

/-- Modelled from the spec: validate a scope record (§3, §6). -/
def AutomationScope.model_validate (j : Json) : Except RawExn AutomationScope :=
  match (j.field? "scopeType").bind Json.asString?,
        (j.field? "id").bind Json.asString?,
        (j.field? "name").bind Json.asString? with
  | some ts, some i, some n =>
    match ScopeType.ofString? ts with
    | some t => .ok ⟨t, i, n⟩
    | none => .error (.validationError "AutomationScope.scope_type")
  | _, _, _ => .error (.validationError "AutomationScope")

/-- Modelled from the spec: validate a read event record (§3, §6). -/
def SavedEvent.model_validate (j : Json) : Except RawExn SavedEvent :=
  match (j.field? "eventType").bind Json.asString?,
        j.field? "scope", j.field? "filter" with
  | some et, some sj, some fj =>
    match EventType.ofString? et with
    | none => .error (.validationError "SavedEvent.event_type")
    | some t =>
      match AutomationScope.model_validate sj with
      | .error e => .error e
      | .ok sc =>
        match SavedEventFilter.model_validate fj with
        | .error e => .error e
        | .ok f => .ok ⟨t, sc, f⟩
  | _, _, _ => .error (.validationError "SavedEvent")

/-- Modelled from the spec: validate an action record according to its
discriminant (§3, §6). -/
def InputAction.model_validate (j : Json) : Except RawExn InputAction :=
  match (j.field? "actionType").bind Json.asString? with
  | some "NOTIFICATION" =>
    match (j.field? "integrationId").bind Json.asString?,
          (j.field? "title").bind Json.asString?,
          (j.field? "message").bind Json.asString?,
          (j.field? "severity").bind Json.asString? with
    | some i, some t, some m, some s => .ok (.notification ⟨i, t, m, s⟩)
    | _, _, _, _ => .error (.validationError "DoNotification")
  | some "GENERIC_WEBHOOK" =>
    match (j.field? "integrationId").bind Json.asString?,
          (j.field? "requestPayload").bind Json.asString? with
    | some i, some p => .ok (.webhook ⟨i, p⟩)
    | _, _ => .error (.validationError "DoWebhook")
  | some "NO_OP" =>
    match (j.field? "noOp").bind Json.asBool? with
    | some b => .ok (.noop ⟨b⟩)
    | none => .error (.validationError "DoNothing")
  | some "QUEUE_JOB" =>
    match (j.field? "queueId").bind Json.asString? with
    | some q => .ok (.queueJob ⟨q⟩)
    | none => .error (.validationError "QueueJob")
  | _ => .error (.validationError "InputAction")

/-- A raw per-project trigger record: the backend-side representation of a
saved automation (spec glossary), carrying the automation fields of §3. -/
structure Trigger where
  id : String
  name : String
  description : Option String
  enabled : Bool
  scope : AutomationScope
  event : SavedEvent
  action : InputAction

/-- Modelled from the spec: validate one trigger record (§3, §6). The
optional `description` may be absent or `null`. -/
def Trigger.model_validate (j : Json) : Except RawExn Trigger :=
  match (j.field? "id").bind Json.asString?,
        (j.field? "name").bind Json.asString?,
        (j.field? "enabled").bind Json.asBool?,
        j.field? "scope", j.field? "event", j.field? "action" with
  | some i, some n, some en, some sj, some ej, some aj =>
    let desc : Option String := (j.field? "description").bind Json.asString?
    match AutomationScope.model_validate sj with
    | .error e => .error e
    | .ok sc =>
      match SavedEvent.model_validate ej with
      | .error e => .error e
      | .ok ev =>
        match InputAction.model_validate aj with
        | .error e => .error e
        | .ok ac => .ok ⟨i, n, desc, en, sc, ev, ac⟩
  | _, _, _, _, _, _ => .error (.validationError "Trigger")

def Trigger.validateList : List Json → Except RawExn (List Trigger)
  | [] => .ok []
  | j :: rest =>
    match Trigger.model_validate j with
    | .error e => .error e
    | .ok t =>
      match Trigger.validateList rest with
      | .error e => .error e
      | .ok ts => .ok (t :: ts)

/-- A node of the project connection: holds the project's trigger list. -/
structure TriggerNode where
  triggers : List Trigger

/-- An edge of the project connection. -/
structure TriggerEdge where
  node : TriggerNode

/-- `pageInfo` of the project connection. -/
structure PageInfo where
  has_next_page : Bool
  end_cursor : Option String

/-- Modelled from the spec: validate `pageInfo.{hasNextPage, endCursor}`
(§6); `endCursor` may be `null`. -/
def PageInfo.model_validate (j : Json) : Except RawExn PageInfo :=
  match (j.field? "hasNextPage").bind Json.asBool?, j.field? "endCursor" with
  | some hnp, some .null => .ok ⟨hnp, none⟩
  | some hnp, some (.str c) => .ok ⟨hnp, some c⟩
  | _, _ => .error (.validationError "PageInfo")

/-- `ProjectConnectionFields`: one page of the project connection —
`edges[].node.triggers[]` plus `pageInfo`. -/
structure ProjectConnectionFields where
  edges : List TriggerEdge
  page_info : PageInfo

def TriggerEdge.validateList : List Json → Except RawExn (List TriggerEdge)
  | [] => .ok []
  | j :: rest =>
    match (j.field? "node").bind (fun nj => nj.field? "triggers") with
    | some (.arr tjs) =>
      match Trigger.validateList tjs with
      | .error e => .error e
      | .ok ts =>
        match TriggerEdge.validateList rest with
        | .error e => .error e
        | .ok es => .ok (⟨⟨ts⟩⟩ :: es)
    | _ => .error (.validationError "TriggerEdge")

/-- `ProjectConnectionFields.model_validate`: validate a page of the project
connection against the expected shape (modelled from the spec, §6). -/
def ProjectConnectionFields.model_validate (j : Json) :
    Except RawExn ProjectConnectionFields :=
  match j.field? "edges", j.field? "pageInfo" with
  | some (.arr ejs), some pj =>
    match TriggerEdge.validateList ejs with
    | .error e => .error e
    | .ok es =>
      match PageInfo.model_validate pj with
      | .error e => .error e
      | .ok pi => .ok ⟨es, pi⟩
  | _, _ => .error (.validationError "ProjectConnectionFields")

/-! ## Paginated listing (`wandb/apis/public/automations.py`)

`AutomationsByEntity` and `AutomationsForViewer` differ only in which GraphQL
query document they send; their `more`, `cursor`, `_update_response` and
`convert_objects` bodies are textually identical, so both are embedded by
the single state type below. -/

/-- The paginator state relevant to this excerpt: the last fetched page, or
`none` before any page has been fetched. -/
structure AutomationsPaginator where
  last_response : Option ProjectConnectionFields := none

/-- `more`: whether there are more items to fetch. -/
def AutomationsPaginator.more (st : AutomationsPaginator) : Bool :=
  match st.last_response with
  | none => true
  | some r => r.page_info.has_next_page

/-- `cursor`: the start cursor to use for the next page. -/
def AutomationsPaginator.cursor (st : AutomationsPaginator) : Option String :=
  match st.last_response with
  | none => none
  | some r => r.page_info.end_cursor

/-- The exception surfaced by `_update_response`: either the wrapped
`ValueError("Unexpected response data")`, or a raw exception that the
`except (LookupError, AttributeError, ValidationError)` clause does not
catch and therefore propagates. -/
inductive PubError where
  | valueError (msg : String)
  | raw (e : RawExn)
deriving DecidableEq, Repr

/-- Which raw exceptions the `except (LookupError, AttributeError,
ValidationError)` clause catches: `KeyError` is a `LookupError`;
`TypeError` is none of the three. -/
def RawExn.caught : RawExn → Bool
  | .keyError _ => true
  | .attributeError _ => true
  | .validationError _ => true
  | .typeError _ => false

/-- The body of the `try` block in `_update_response`:
`page_data = data["searchScope"]["projects"]` followed by
`ProjectConnectionFields.model_validate(page_data)`. -/
def try_parse_page (data : Json) : Except RawExn ProjectConnectionFields :=
  match data.getitem "searchScope" with
  | .error e => .error e
  | .ok sub =>
    match sub.getitem "projects" with
    | .error e => .error e
    | .ok page_data => ProjectConnectionFields.model_validate page_data

/-- `_update_response`: parse and store the current page; exceptions of the
caught classes are re-raised as `ValueError("Unexpected response data")`,
any other exception propagates unchanged. -/
def _update_response (data : Json) (st : AutomationsPaginator) :
    Except PubError AutomationsPaginator :=
  match try_parse_page data with
  | .ok page => .ok { st with last_response := some page }
  | .error e =>
    if e.caught then .error (.valueError "Unexpected response data")
    else .error (.raw e)

/-- Decoding one raw trigger record into an SDK `Automation`
(`Automation.model_validate_json(obj.model_dump_json())`). Modelled from the
spec: each record is "independently decoded into an Automation instance"
(§4.4); the validated trigger record carries exactly the automation fields,
so the JSON round-trip restructures them one-to-one. -/
def Trigger.to_automation (t : Trigger) : Automation :=
  ⟨t.id, t.name, t.description, t.enabled, t.scope, t.event, t.action⟩

/-- `convert_objects`: parse the page data into a list of objects — one
`Automation` per trigger record of `chain.from_iterable(edge.node.triggers
for edge in page.edges)`. (The Python method reads the page from
`self.last_response`, set by the preceding `_update_response`.) -/
def convert_objects (page : ProjectConnectionFields) : List Automation :=
  ((page.edges.map fun edge => edge.node.triggers).flatten).map Trigger.to_automation

/-! ## Health-check wait (`tools/local_wandb_server.py`)

`_wait_for_http_200` polls `requests.get(health_url, ...)` in a loop.  Each
loop iteration is embedded as a pair of the outcome of the GET attempt and
the elapsed monotonic time (in seconds) observed at the `time_remaining()`
check that follows the attempt; `time_remaining() <= 0` is `timeout -
elapsed <= 0`.  The loop itself never exits on its own, so a finite trace
that runs out before the loop returns is reported as `outOfPolls`. -/

/-- The outcome of one `requests.get` attempt: an HTTP response with a status
code, a `requests.ConnectionError`, or a `requests.Timeout`. -/
inductive PollOutcome where
  | status (code : Nat)
  | connError
  | timedOut
deriving DecidableEq, Repr

/-- How the wait ends: normal return, `TimeoutError`, or the finite trace was
exhausted before the loop ended. -/
inductive WaitResult where
  | success
  | timeoutError
  | outOfPolls
deriving DecidableEq, Repr

/-- `_wait_for_http_200`: return on HTTP 200; swallow `ConnectionError`;
raise `TimeoutError` on `requests.Timeout`; after a non-200 response or a
swallowed connection error, raise `TimeoutError` once `time_remaining() <= 0`
and otherwise sleep and retry. -/
def _wait_for_http_200 (timeout : Int) :
    List (PollOutcome × Int) → WaitResult
  | [] => .outOfPolls
  | (o, elapsed) :: rest =>
    match o with
    | .status code =>
      if code = 200 then .success
      else if timeout - elapsed ≤ 0 then .timeoutError
      else _wait_for_http_200 timeout rest
    | .connError =>
      if timeout - elapsed ≤ 0 then .timeoutError
      else _wait_for_http_200 timeout rest
    | .timedOut => .timeoutError

/-! ## Service-API finalizer cleanup (`wandb/apis/public/service_api.py`) -/

/-- The service connection, as seen by `_cleanup`: its
`api_cleanup_request(api_id)` call may fail with an arbitrary exception
(modelled as a result carried by the connection value). -/
structure ServiceConnection where
  api_cleanup_request : String → Except String Unit

/-- `_cleanup(connection, api_id)`: when the connection is not `None`, issue
the cleanup request under `contextlib.suppress(Exception)`.  The returned
list records the cleanup requests that were issued; the `Except` layer
carries any exception the function itself would raise. -/
def _cleanup (connection : Option ServiceConnection) (api_id : String) :
    Except String (List String) :=
  match connection with
  | none => .ok []
  | some conn =>
    match conn.api_cleanup_request api_id with
    | .ok _ => .ok [api_id]
    | .error _ => .ok [api_id]

/-! ## Spec predicates and concrete example values -/

/-- The action-config wrapper has exactly one of its three fields populated,
the one matching the discriminant `t`, and the other two absent. -/
def configPopulatedExactly (cfg : InputActionConfig) (t : ActionType) : Prop :=
  (cfg.notification_action_input.isSome ↔ t = ActionType.NOTIFICATION) ∧
  (cfg.generic_webhook_action_input.isSome ↔ t = ActionType.GENERIC_WEBHOOK) ∧
  (cfg.no_op_action_input.isSome ↔ t = ActionType.NO_OP)

/-- The filter value `prepare_update_input` serializes: the inner expression
of a wrapped read-shape filter, or the plain expression unchanged. -/
def SavedEventFilter.unwrap : SavedEventFilter → FilterExpr
  | .wrapped w => w.filter
  | .plain f => f

def exampleScope : AutomationScope := ⟨.PROJECT, "proj-id", "my-project"⟩

def exampleFilter : FilterExpr := .pred ⟨"alias", "contains", "prod"⟩

def exampleInputEvent : InputEvent := ⟨.CREATE_ARTIFACT, exampleScope, exampleFilter⟩

def exampleSavedEvent : SavedEvent :=
  ⟨.CREATE_ARTIFACT, exampleScope, .wrapped ⟨exampleFilter⟩⟩

def exampleNotification : DoNotification := ⟨"integration-1", "title", "msg", "INFO"⟩

def exampleNewAutomation : NewAutomation :=
  { name := some "test-automation"
    description := some "a test automation"
    enabled := some true
    scope := some exampleScope
    event := some exampleInputEvent
    action := some (.notification exampleNotification) }

def examplePrepared : PreparedAutomation :=
  ⟨"test-automation", some "a test automation", true, exampleScope,
    exampleInputEvent, .notification exampleNotification⟩

def exampleAutomation : Automation :=
  ⟨"automation-1", "test-automation", some "a test automation", true,
    exampleScope, exampleSavedEvent, .notification exampleNotification⟩

/-- A saved automation whose action is the deprecated launch-job action. -/
def exampleQueueAutomation : Automation :=
  { exampleAutomation with action := .queueJob ⟨"queue-1"⟩ }

/-- An unsaved automation whose action is the deprecated launch-job action. -/
def exampleQueueNewAutomation : NewAutomation :=
  { exampleNewAutomation with action := some (.queueJob ⟨"queue-1"⟩) }

def exampleQueuePrepared : PreparedAutomation :=
  { examplePrepared with action := .queueJob ⟨"queue-1"⟩ }

/-- A well-shaped page response: one project edge with no triggers. -/
def exampleGoodData : Json :=
  .obj [("searchScope", .obj [("projects", .obj
    [("edges", .arr [.obj [("node", .obj [("triggers", .arr [])])]]),
     ("pageInfo", .obj [("hasNextPage", .bool false), ("endCursor", .null)])])])]

/-- The page `exampleGoodData` validates to. -/
def exampleGoodPage : ProjectConnectionFields := ⟨[⟨⟨[]⟩⟩], ⟨false, none⟩⟩

/-- A response missing the `searchScope` key: lookup raises `KeyError`. -/
def exampleMissingKeyData : Json := .obj []

/-- A response whose `searchScope` is `null`: subscripting raises
`TypeError`. -/
def exampleNullScopeData : Json := .obj [("searchScope", .null)]

/-! ## Helper lemmas -/

theorem new_automation_copy_no_updates (a : NewAutomation) :
    a.model_copy {} = a := rfl

theorem automation_copy_no_updates (a : Automation) :
    a.model_copy {} = a := rfl

/-- For the three supported action kinds, `prepare_action_input` succeeds and
populates exactly the wrapper field matching the discriminant. -/
theorem prepare_action_input_known_ok (a : InputAction)
    (ha : a.action_type = ActionType.NOTIFICATION ∨
          a.action_type = ActionType.GENERIC_WEBHOOK ∨
          a.action_type = ActionType.NO_OP) :
    ∃ cfg, prepare_action_input a = .ok cfg ∧
      configPopulatedExactly cfg a.action_type := by
  cases a with
  | notification x =>
    refine ⟨{ notification_action_input := some x }, ?_, ?_⟩
    · simp [prepare_action_input, InputAction.action_type, _ACTION_CONFIG_KEYS,
        InputActionConfig.model_validate]
    · simp [configPopulatedExactly, InputAction.action_type]
  | webhook x =>
    refine ⟨{ generic_webhook_action_input := some x }, ?_, ?_⟩
    · simp [prepare_action_input, InputAction.action_type, _ACTION_CONFIG_KEYS,
        InputActionConfig.model_validate]
    · simp [configPopulatedExactly, InputAction.action_type]
  | noop x =>
    refine ⟨{ no_op_action_input := some x }, ?_, ?_⟩
    · simp [prepare_action_input, InputAction.action_type, _ACTION_CONFIG_KEYS,
        InputActionConfig.model_validate]
    · simp [configPopulatedExactly, InputAction.action_type]
  | queueJob x =>
    rcases ha with h | h | h <;> simp [InputAction.action_type] at h

/-! ## C1 -/

/-- C1: for every automation whose action discriminant is one of
`NOTIFICATION`, `GENERIC_WEBHOOK`, `NO_OP`, `prepare_create_input` returns a
payload carrying the automation's name, description, enabled flag, scope
type and id, the event's `event_type` as `triggering_event_type`, the
event's filter, the action's discriminant as `triggered_action_type`, and an
action-config wrapper in which exactly the field matching the discriminant
is populated and the other two are absent. -/
theorem prepare_create_input_shape
    (obj : NewAutomation) (p : PreparedAutomation)
    (hv : PreparedAutomation.model_validate obj = .ok p)
    (ha : p.action.action_type = ActionType.NOTIFICATION ∨
          p.action.action_type = ActionType.GENERIC_WEBHOOK ∨
          p.action.action_type = ActionType.NO_OP) :
    ∃ payload, prepare_create_input obj {} = .ok payload ∧
      payload.name = p.name ∧
      payload.description = p.description ∧
      payload.enabled = p.enabled ∧
      payload.scope_type = p.scope.scope_type ∧
      payload.scope_id = p.scope.id ∧
      payload.triggering_event_type = p.event.event_type ∧
      payload.event_filter = p.event.filter ∧
      payload.triggered_action_type = p.action.action_type ∧
      configPopulatedExactly payload.triggered_action_config p.action.action_type := by
  obtain ⟨cfg, hcfg, hpop⟩ := prepare_action_input_known_ok p.action ha
  refine ⟨⟨p.name, p.description, p.enabled, p.scope.scope_type, p.scope.id,
    p.event.event_type, p.event.filter, p.action.action_type, cfg⟩,
    ?_, rfl, rfl, rfl, rfl, rfl, rfl, rfl, rfl, hpop⟩
  simp [prepare_create_input, new_automation_copy_no_updates, hv, hcfg]

theorem prepare_create_input_shape_witness :
    ∃ payload, prepare_create_input exampleNewAutomation {} = .ok payload ∧
      payload.triggering_event_type = examplePrepared.event.event_type ∧
      configPopulatedExactly payload.triggered_action_config
        examplePrepared.action.action_type := by
  obtain ⟨payload, h1, _, _, _, _, _, h7, _, _, h10⟩ :=
    prepare_create_input_shape exampleNewAutomation examplePrepared rfl (Or.inl rfl)
  exact ⟨payload, h1, h7, h10⟩

/-! ## C2 -/

/-- C2 counterexample: for the deprecated launch-job action (not in
`_ACTION_CONFIG_KEYS`), preparing the action config fails with the raw
`KeyError` from the dict lookup, which is not the descriptive
"unsupported action type" configuration error the claim describes. -/
theorem prepare_action_input_unknown_counterexample :
    prepare_action_input (.queueJob ⟨"queue-1"⟩)
      = .error (.keyError ActionType.QUEUE_JOB) ∧
    PrepError.keyError ActionType.QUEUE_JOB
      ≠ PrepError.unsupportedActionType ActionType.QUEUE_JOB := by
  exact ⟨rfl, by decide⟩

/-- C2 (amended): for every action whose discriminant has no entry in
`_ACTION_CONFIG_KEYS`, preparing the action config — directly, via
`prepare_update_input`, or via `prepare_create_input` — fails with the raw
`KeyError` of the failed dict lookup, not a descriptive configuration
error. -/
theorem prepare_action_input_unknown_key (a : InputAction)
    (hk : _ACTION_CONFIG_KEYS a.action_type = none)
    (obj : Automation) (hobj : obj.action = a)
    (nobj : NewAutomation) (p : PreparedAutomation)
    (hv : PreparedAutomation.model_validate nobj = .ok p)
    (hpa : p.action = a) :
    prepare_action_input a = .error (.keyError a.action_type) ∧
    prepare_update_input obj {} = .error (.keyError a.action_type) ∧
    prepare_create_input nobj {} = .error (.keyError a.action_type) := by
  have hbase : prepare_action_input a = .error (.keyError a.action_type) := by
    simp [prepare_action_input, hk]
  refine ⟨hbase, ?_, ?_⟩
  · simp [prepare_update_input, automation_copy_no_updates, hobj, hbase]
  · simp [prepare_create_input, new_automation_copy_no_updates, hv, hpa, hbase]

theorem prepare_action_input_unknown_key_witness :
    prepare_action_input (.queueJob ⟨"queue-1"⟩)
      = .error (.keyError ActionType.QUEUE_JOB) ∧
    prepare_update_input exampleQueueAutomation {}
      = .error (.keyError ActionType.QUEUE_JOB) ∧
    prepare_create_input exampleQueueNewAutomation {}
      = .error (.keyError ActionType.QUEUE_JOB) :=
  prepare_action_input_unknown_key (.queueJob ⟨"queue-1"⟩) rfl
    exampleQueueAutomation rfl exampleQueueNewAutomation exampleQueuePrepared
    rfl rfl

/-! ## C3 -/

/-- C3: for every saved automation (with a supported action kind),
`prepare_update_input` returns a payload of the same shape as the create
payload plus the identity field `id`; the serialized `event_filter` is the
unwrapped inner expression whenever the automation's filter is the wrapped
read-shape, and the plain expression otherwise. -/
theorem prepare_update_input_shape (obj : Automation)
    (ha : obj.action.action_type = ActionType.NOTIFICATION ∨
          obj.action.action_type = ActionType.GENERIC_WEBHOOK ∨
          obj.action.action_type = ActionType.NO_OP) :
    ∃ payload cfg, prepare_update_input obj {} = .ok payload ∧
      prepare_action_input obj.action = .ok cfg ∧
      payload.id = obj.id ∧
      payload.name = obj.name ∧
      payload.description = obj.description ∧
      payload.enabled = obj.enabled ∧
      payload.scope_type = obj.scope.scope_type ∧
      payload.scope_id = obj.scope.id ∧
      payload.triggering_event_type = obj.event.event_type ∧
      payload.triggered_action_type = obj.action.action_type ∧
      payload.triggered_action_config = cfg ∧
      configPopulatedExactly cfg obj.action.action_type ∧
      payload.event_filter = obj.event.filter.unwrap ∧
      (∀ w, obj.event.filter = SavedEventFilter.wrapped w →
        payload.event_filter = w.filter) ∧
      (∀ f, obj.event.filter = SavedEventFilter.plain f →
        payload.event_filter = f) := by
  obtain ⟨cfg, hcfg, hpop⟩ := prepare_action_input_known_ok obj.action ha
  refine ⟨⟨obj.id, obj.name, obj.description, obj.enabled,
    obj.scope.scope_type, obj.scope.id, obj.event.event_type,
    obj.event.filter.unwrap, obj.action.action_type, cfg⟩, cfg,
    ?_, hcfg, rfl, rfl, rfl, rfl, rfl, rfl, rfl, rfl, rfl, hpop, rfl,
    ?_, ?_⟩
  · simp [prepare_update_input, automation_copy_no_updates, hcfg,
      SavedEventFilter.unwrap]
  · intro w hw; simp [hw, SavedEventFilter.unwrap]
  · intro f hf; simp [hf, SavedEventFilter.unwrap]

theorem prepare_update_input_shape_witness :
    ∃ payload cfg, prepare_update_input exampleAutomation {} = .ok payload ∧
      prepare_action_input exampleAutomation.action = .ok cfg ∧
      payload.id = exampleAutomation.id ∧
      payload.event_filter = exampleAutomation.event.filter.unwrap := by
  obtain ⟨payload, cfg, h1, h2, h3, _, _, _, _, _, _, _, _, _, h13, _⟩ :=
    prepare_update_input_shape exampleAutomation (Or.inl rfl)
  exact ⟨payload, cfg, h1, h2, h3, h13⟩

/-! ## C4 -/

/-- C4: for a saved automation and any overrides drawn from `{name,
description, enabled}`, the update preparer yields a payload whose
overridden fields equal the override values, whose not-overridden fields
among the three keep the original values, and whose every other field
equals the corresponding field of the original automation (whole-field
replacement only). -/
theorem prepare_update_input_merge (obj : Automation)
    (n d : Option String) (e : Option Bool)
    (ha : obj.action.action_type = ActionType.NOTIFICATION ∨
          obj.action.action_type = ActionType.GENERIC_WEBHOOK ∨
          obj.action.action_type = ActionType.NO_OP) :
    ∃ payload cfg,
      prepare_update_input obj { name := n, description := d, enabled := e }
        = .ok payload ∧
      prepare_action_input obj.action = .ok cfg ∧
      payload.name = n.getD obj.name ∧
      payload.description =
        (match d with | some v => some v | none => obj.description) ∧
      payload.enabled = e.getD obj.enabled ∧
      payload.id = obj.id ∧
      payload.scope_type = obj.scope.scope_type ∧
      payload.scope_id = obj.scope.id ∧
      payload.triggering_event_type = obj.event.event_type ∧
      payload.event_filter = obj.event.filter.unwrap ∧
      payload.triggered_action_type = obj.action.action_type ∧
      payload.triggered_action_config = cfg := by
  obtain ⟨cfg, hcfg, _⟩ := prepare_action_input_known_ok obj.action ha
  refine ⟨⟨obj.id, n.getD obj.name,
    (match d with | some v => some v | none => obj.description),
    e.getD obj.enabled, obj.scope.scope_type, obj.scope.id,
    obj.event.event_type, obj.event.filter.unwrap, obj.action.action_type,
    cfg⟩, cfg, ?_, hcfg, rfl, rfl, rfl, rfl, rfl, rfl, rfl, rfl, rfl, rfl⟩
  simp [prepare_update_input, Automation.model_copy, hcfg,
    SavedEventFilter.unwrap]

theorem prepare_update_input_merge_witness :
    ∃ payload cfg,
      prepare_update_input exampleAutomation
        { name := some "renamed", description := none, enabled := some false }
        = .ok payload ∧
      prepare_action_input exampleAutomation.action = .ok cfg ∧
      payload.name = "renamed" ∧
      payload.description = exampleAutomation.description ∧
      payload.enabled = false ∧
      payload.id = exampleAutomation.id := by
  obtain ⟨payload, cfg, h1, h2, h3, h4, h5, h6, _⟩ :=
    prepare_update_input_merge exampleAutomation
      (some "renamed") none (some false) (Or.inl rfl)
  exact ⟨payload, cfg, h1, h2, h3, h4, h5, h6⟩

/-! ## C5 -/

/-- C5: `more` is `true` before any page has been fetched
(`last_response is None`); after any successful page fetch it equals the
`hasNextPage` flag of the last fetched page — in particular `false` after a
final page. -/
theorem automations_paginator_more (r : ProjectConnectionFields)
    (data : Json) (st st' : AutomationsPaginator)
    (hfetch : _update_response data st = .ok st') :
    AutomationsPaginator.more ⟨none⟩ = true ∧
    AutomationsPaginator.more ⟨some r⟩ = r.page_info.has_next_page ∧
    ∃ page, st'.last_response = some page ∧
      st'.more = page.page_info.has_next_page := by
  refine ⟨rfl, rfl, ?_⟩
  unfold _update_response at hfetch
  cases h : try_parse_page data with
  | ok page =>
    rw [h] at hfetch
    cases hfetch
    exact ⟨page, rfl, rfl⟩
  | error e =>
    rw [h] at hfetch
    by_cases hc : e.caught <;> simp [hc] at hfetch

theorem automations_paginator_more_witness :
    AutomationsPaginator.more ⟨none⟩ = true ∧
    AutomationsPaginator.more ⟨some exampleGoodPage⟩
      = exampleGoodPage.page_info.has_next_page ∧
    ∃ page,
      (AutomationsPaginator.mk (some exampleGoodPage)).last_response
        = some page ∧
      (AutomationsPaginator.mk (some exampleGoodPage)).more
        = page.page_info.has_next_page :=
  automations_paginator_more exampleGoodPage exampleGoodData ⟨none⟩
    ⟨some exampleGoodPage⟩ rfl

/-! ## C10 -/

/-- C10: `cursor` is `none` before any page has been fetched — so the first
request carries a null position token — and after any successful page fetch
it equals the `endCursor` of the last fetched page. -/
theorem automations_paginator_cursor (r : ProjectConnectionFields)
    (data : Json) (st st' : AutomationsPaginator)
    (hfetch : _update_response data st = .ok st') :
    AutomationsPaginator.cursor ⟨none⟩ = none ∧
    AutomationsPaginator.cursor ⟨some r⟩ = r.page_info.end_cursor ∧
    ∃ page, st'.last_response = some page ∧
      st'.cursor = page.page_info.end_cursor := by
  refine ⟨rfl, rfl, ?_⟩
  unfold _update_response at hfetch
  cases h : try_parse_page data with
  | ok page =>
    rw [h] at hfetch
    cases hfetch
    exact ⟨page, rfl, rfl⟩
  | error e =>
    rw [h] at hfetch
    by_cases hc : e.caught <;> simp [hc] at hfetch

theorem automations_paginator_cursor_witness :
    AutomationsPaginator.cursor ⟨none⟩ = none ∧
    AutomationsPaginator.cursor ⟨some exampleGoodPage⟩
      = exampleGoodPage.page_info.end_cursor ∧
    ∃ page,
      (AutomationsPaginator.mk (some exampleGoodPage)).last_response
        = some page ∧
      (AutomationsPaginator.mk (some exampleGoodPage)).cursor
        = page.page_info.end_cursor :=
  automations_paginator_cursor exampleGoodPage exampleGoodData ⟨none⟩
    ⟨some exampleGoodPage⟩ rfl

/-! ## C6 -/

/-- C6: decoding a page with N trigger records (summed across its project
edges) yields exactly N `Automation` instances, and edge by edge in the
original order: the automations of the first edge's triggers precede those
of the remaining edges. -/
theorem convert_objects_count_order (page : ProjectConnectionFields)
    (edge : TriggerEdge) (edges : List TriggerEdge) (pi : PageInfo) :
    (convert_objects page).length
      = (page.edges.map fun e => e.node.triggers.length).sum ∧
    convert_objects ⟨edge :: edges, pi⟩
      = edge.node.triggers.map Trigger.to_automation
        ++ convert_objects ⟨edges, pi⟩ := by
  constructor
  · simp [convert_objects, Function.comp_def]
  · simp [convert_objects]

/-! ## C7 -/

/-- C7 counterexample: a response whose `searchScope` value is `null` is a
shape mismatch (wrong type), yet `_update_response` propagates the raw
`TypeError` from `None["projects"]` — `TypeError` is not among the caught
`(LookupError, AttributeError, ValidationError)` — instead of raising the
wrapped `ValueError`. -/
theorem update_response_typeerror_counterexample :
    _update_response exampleNullScopeData ⟨none⟩
      = .error (.raw (.typeError "object is not subscriptable")) ∧
    PubError.raw (.typeError "object is not subscriptable")
      ≠ PubError.valueError "Unexpected response data" := by
  exact ⟨rfl, by decide⟩

/-- C7 (amended): a well-shaped response is parsed and stored; a parse
failure raising one of the caught exception classes (`LookupError`,
`AttributeError`, pydantic `ValidationError`) is re-raised as the single
descriptive `ValueError("Unexpected response data")`; but a failure raising
`TypeError` (subscripting a non-subscriptable value such as a `null`
`searchScope`) propagates the raw exception. -/
theorem update_response_wrapping
    (dataOk dataCaught dataRaw : Json) (st : AutomationsPaginator)
    (page : ProjectConnectionFields) (e₁ e₂ : RawExn)
    (hok : try_parse_page dataOk = .ok page)
    (hc : try_parse_page dataCaught = .error e₁) (hc₂ : e₁.caught = true)
    (hr : try_parse_page dataRaw = .error e₂) (hr₂ : e₂.caught = false) :
    _update_response dataOk st = .ok { st with last_response := some page } ∧
    _update_response dataCaught st
      = .error (.valueError "Unexpected response data") ∧
    _update_response dataRaw st = .error (.raw e₂) := by
  refine ⟨?_, ?_, ?_⟩
  · simp [_update_response, hok]
  · simp [_update_response, hc, hc₂]
  · simp [_update_response, hr, hr₂]

theorem update_response_wrapping_witness :
    _update_response exampleGoodData ⟨none⟩
      = .ok { last_response := some exampleGoodPage } ∧
    _update_response exampleMissingKeyData ⟨none⟩
      = .error (.valueError "Unexpected response data") ∧
    _update_response exampleNullScopeData ⟨none⟩
      = .error (.raw (.typeError "object is not subscriptable")) :=
  update_response_wrapping exampleGoodData exampleMissingKeyData
    exampleNullScopeData ⟨none⟩ exampleGoodPage (.keyError "searchScope")
    (.typeError "object is not subscriptable") rfl rfl rfl rfl rfl

/-! ## C8 -/

theorem wait_success_has_200 (timeout : Int) (polls : List (PollOutcome × Int))
    (h : _wait_for_http_200 timeout polls = .success) :
    ∃ p ∈ polls, p.fst = PollOutcome.status 200 := by
  induction polls with
  | nil => simp [_wait_for_http_200] at h
  | cons hd rest ih =>
    obtain ⟨o, elapsed⟩ := hd
    cases o with
    | status code =>
      by_cases h200 : code = 200
      · subst h200
        exact ⟨(.status 200, elapsed), by simp, rfl⟩
      · by_cases ht : timeout - elapsed ≤ 0
        · simp [_wait_for_http_200, h200, ht] at h
        · simp only [_wait_for_http_200, if_neg h200, if_neg ht] at h
          obtain ⟨p, hp, hp200⟩ := ih h
          exact ⟨p, List.mem_cons_of_mem _ hp, hp200⟩
    | connError =>
      by_cases ht : timeout - elapsed ≤ 0
      · simp [_wait_for_http_200, ht] at h
      · simp only [_wait_for_http_200, if_neg ht] at h
        obtain ⟨p, hp, hp200⟩ := ih h
        exact ⟨p, List.mem_cons_of_mem _ hp, hp200⟩
    | timedOut => simp [_wait_for_http_200] at h

theorem wait_reaches_200 (timeout : Int) (e : Int)
    (rest : List (PollOutcome × Int)) :
    ∀ pre : List (PollOutcome × Int),
      (∀ p ∈ pre, p.fst ≠ PollOutcome.status 200 ∧
        p.fst ≠ PollOutcome.timedOut ∧ p.snd < timeout) →
      _wait_for_http_200 timeout (pre ++ (PollOutcome.status 200, e) :: rest)
        = .success := by
  intro pre
  induction pre with
  | nil => intro _; simp [_wait_for_http_200]
  | cons hd tl ih =>
    intro hpre
    have h1 := hpre hd (List.mem_cons_self hd tl)
    obtain ⟨o, t⟩ := hd
    obtain ⟨hns, hnt, htl⟩ := h1
    have hlt : ¬(timeout - t ≤ 0) := by omega
    cases o with
    | status code =>
      have hc : code ≠ 200 := by
        intro hcode; exact hns (by rw [hcode])
      simp only [List.cons_append, _wait_for_http_200, if_neg hc, if_neg hlt]
      exact ih (fun p hp => hpre p (List.mem_cons_of_mem _ hp))
    | connError =>
      simp only [List.cons_append, _wait_for_http_200, if_neg hlt]
      exact ih (fun p hp => hpre p (List.mem_cons_of_mem _ hp))
    | timedOut => exact absurd rfl hnt

theorem wait_no200_timeout (timeout : Int) (o : PollOutcome) (e : Int)
    (rest : List (PollOutcome × Int))
    (ho : o ≠ PollOutcome.status 200) (he : timeout ≤ e) :
    ∀ pre : List (PollOutcome × Int),
      (∀ p ∈ pre, p.fst ≠ PollOutcome.status 200) →
      _wait_for_http_200 timeout (pre ++ (o, e) :: rest) = .timeoutError := by
  intro pre
  induction pre with
  | nil =>
    intro _
    have ht : timeout - e ≤ 0 := by omega
    cases o with
    | status code =>
      have hc : code ≠ 200 := by
        intro hcode; exact ho (by rw [hcode])
      simp [_wait_for_http_200, hc, ht]
    | connError => simp [_wait_for_http_200, ht]
    | timedOut => simp [_wait_for_http_200]
  | cons hd tl ih =>
    intro hpre
    have h1 := hpre hd (List.mem_cons_self hd tl)
    obtain ⟨po, pt⟩ := hd
    have htail := fun p hp => hpre p (List.mem_cons_of_mem _ hp)
    cases po with
    | status code =>
      have hc : code ≠ 200 := by
        intro hcode; exact h1 (by rw [hcode])
      by_cases ht : timeout - pt ≤ 0
      · simp [_wait_for_http_200, hc, ht]
      · simp only [List.cons_append, _wait_for_http_200, if_neg hc, if_neg ht]
        exact ih htail
    | connError =>
      by_cases ht : timeout - pt ≤ 0
      · simp [_wait_for_http_200, ht]
      · simp only [List.cons_append, _wait_for_http_200, if_neg ht]
        exact ih htail
    | timedOut => simp [_wait_for_http_200]

/-- C8: the health-check wait returns normally only when some poll returned
HTTP 200; any run of non-200, non-`Timeout` polls with time remaining
(connection errors included) is retried until a poll returns 200, which
succeeds; a single connection error with time remaining is silently
swallowed (the wait continues exactly as if the poll had not happened); and
when no poll returns 200 before the deadline is reached, the wait fails with
`TimeoutError`. -/
theorem wait_for_http_200_spec (timeout : Int)
    (polls pre rest : List (PollOutcome × Int)) (o : PollOutcome)
    (e t : Int) :
    (_wait_for_http_200 timeout polls = .success →
      ∃ p ∈ polls, p.fst = PollOutcome.status 200) ∧
    ((∀ p ∈ pre, p.fst ≠ PollOutcome.status 200 ∧
        p.fst ≠ PollOutcome.timedOut ∧ p.snd < timeout) →
      _wait_for_http_200 timeout (pre ++ (PollOutcome.status 200, e) :: rest)
        = .success) ∧
    (t < timeout →
      _wait_for_http_200 timeout ((PollOutcome.connError, t) :: rest)
        = _wait_for_http_200 timeout rest) ∧
    (o ≠ PollOutcome.status 200 → timeout ≤ e →
      (∀ p ∈ pre, p.fst ≠ PollOutcome.status 200) →
      _wait_for_http_200 timeout (pre ++ (o, e) :: rest) = .timeoutError) := by
  refine ⟨fun h => wait_success_has_200 timeout polls h,
    fun h => wait_reaches_200 timeout e rest pre h, ?_,
    fun ho he h => wait_no200_timeout timeout o e rest ho he pre h⟩
  intro hlt
  have hnt : ¬(timeout - t ≤ 0) := by omega
  simp [_wait_for_http_200, hnt]

theorem wait_for_http_200_spec_witness :
    (∃ p ∈ [(PollOutcome.status 200, (0 : Int))],
      p.fst = PollOutcome.status 200) ∧
    _wait_for_http_200 5
      ([(PollOutcome.connError, 1), (PollOutcome.status 503, 2)]
        ++ (PollOutcome.status 200, (6 : Int)) :: []) = .success ∧
    _wait_for_http_200 5 ((PollOutcome.connError, 1) :: [])
      = _wait_for_http_200 5 [] ∧
    _wait_for_http_200 5
      ([(PollOutcome.connError, 1), (PollOutcome.status 503, 2)]
        ++ (PollOutcome.connError, (6 : Int)) :: []) = .timeoutError := by
  obtain ⟨h1, h2, h3, h4⟩ := wait_for_http_200_spec 5
    [(.status 200, 0)] [(.connError, 1), (.status 503, 2)] []
    .connError 6 1
  exact ⟨h1 (by decide), h2 (by decide), h3 (by decide),
    h4 (by decide) (by decide) (by decide)⟩

/-! ## C9 -/

/-- C9: the finalizer cleanup never raises — whatever the outcome of the
backend cleanup request, `_cleanup` on a non-`None` connection returns
normally having issued exactly one cleanup request — and on a `None`
connection it returns normally without issuing any request. -/
theorem cleanup_never_raises (c : ServiceConnection) (api_id : String) :
    _cleanup (some c) api_id = .ok [api_id] ∧
    _cleanup none api_id = .ok [] := by
  constructor
  · cases h : c.api_cleanup_request api_id <;> simp [_cleanup, h]
  · rfl

end Wandb
